import Mathlib

/-!
Verification of the WOPR ElevenLabs TTS plugin (`src/index.ts`, `src/webmcp.ts`,
`src/types.ts`) against its natural-language specification.

The TypeScript source is shallowly embedded below.  JavaScript numbers are
modelled as `Rat` (every numeric literal and comparison appearing in the
embedded code paths is exact in binary floating point or is order-isomorphic
to its rational counterpart on the inputs considered), JavaScript strings as
`String`, and `undefined`-able values as `Option`.  The remote HTTP endpoint
and `JSON.parse` are external effects; they are modelled as explicit
parameters (an oracle for `JSON.parse`, an `Except`-valued response for the
network), so every theorem quantifying over them holds for the real
implementations.
-/

namespace ElevenLabsTTS

/-- JavaScript truthiness of a possibly-`undefined` number: `undefined`, `0`
(and `NaN`, which cannot arise on the embedded paths) are falsy. -/
def truthyNum (a : Option Rat) : Bool :=
  match a with
  | some x => x != 0
  | none => false

/-- JavaScript `a || b` on possibly-`undefined` numbers. -/
def jsOrNum (a b : Option Rat) : Option Rat :=
  if truthyNum a then a else b

/-- JavaScript truthiness of a possibly-`undefined` string: `undefined` and
the empty string are falsy. -/
def truthyStr (a : Option String) : Bool :=
  match a with
  | some s => s != ""
  | none => false

/-- JavaScript `a || b` on possibly-`undefined` strings. -/
def jsOrStr (a b : Option String) : Option String :=
  if truthyStr a then a else b

/-- JavaScript `a || d` where `d` is a (truthy) string literal default. -/
def jsStrD (a : Option String) (d : String) : String :=
  match a with
  | some s => if s = "" then d else s
  | none => d

/-- JavaScript `a || d` where `d` is a (nonzero) numeric default. -/
def jsNumD (a : Option Rat) (d : Rat) : Rat :=
  match a with
  | some x => if x = 0 then d else x
  | none => d

/-- JavaScript `a ?? b` (nullish coalescing) on optional values. -/
def coal {α : Type} (a b : Option α) : Option α :=
  match a with
  | some x => some x
  | none => b

/-- Embeds `Math.abs` on the (rational-valued) inputs that occur here. -/
def mathAbs (x : Rat) : Rat :=
  if x < 0 then -x else x

/-- Embeds `validateStability` (src/index.ts).  For the `eleven_v3` model the
code reduces over the array `[0.0, 0.5, 1.0]` keeping the strictly closer
candidate (`Array.prototype.reduce` with no initial value starts from the
first element); otherwise it clamps to `[0, 1]`. -/
def validateStability (value : Option Rat) (modelId : Option String) : Option Rat :=
  match value with
  | none => none
  | some v =>
    if modelId = some "eleven_v3" then
      some (List.foldl
        (fun prev curr => if mathAbs (curr - v) < mathAbs (prev - v) then curr else prev)
        0 [1/2, 1])
    else
      some (max 0 (min 1 v))

/-- Embeds `validateUnit` (src/index.ts): clamp to `[0, 1]`. -/
def validateUnit (value : Option Rat) : Option Rat :=
  value.map (fun v => max 0 (min 1 v))

/-- Embeds `validateSeed` (src/index.ts): `Math.max(0, Math.min(4294967295,
Math.floor(value)))`. -/
def validateSeed (value : Option Rat) : Option Rat :=
  value.map (fun v => max 0 (min 4294967295 ((⌊v⌋ : Int) : Rat)))

/-- Embeds `validateLatencyTier` (src/index.ts): `Math.max(0, Math.min(4,
Math.floor(value)))`. -/
def validateLatencyTier (value : Option Rat) : Option Rat :=
  value.map (fun v => max 0 (min 4 ((⌊v⌋ : Int) : Rat)))

/-- Embeds `resolveSpeed` (src/index.ts): an explicit speed is clamped to
`[0.25, 4.0]`; otherwise a words-per-minute rate is converted via
`rate / 150` and clamped; otherwise `undefined`. -/
def resolveSpeed (speed rateWPM : Option Rat) : Option Rat :=
  match speed with
  | some s => some (max (1/4) (min 4 s))
  | none =>
    match rateWPM with
    | some r => some (max (1/4) (min 4 (r / 150)))
    | none => none

/-- The WOPR `AudioFormat` union (src/types.ts). -/
inductive AudioFormat where
  | pcm_s16le
  | pcm_f32le
  | opus
  | ogg_opus
  | mp3
  | wav
  | webm_opus
  | mulaw
  | alaw
deriving DecidableEq, Repr

/-- Embeds `mapAudioFormat` (src/index.ts). -/
def mapAudioFormat (format : Option AudioFormat) : String :=
  match format with
  | none => "pcm_44100"
  | some .pcm_s16le => "pcm_44100"
  | some .mp3 => "mp3_44100_128"
  | some .opus => "ulaw_8000"
  | some .ogg_opus => "ulaw_8000"
  | some _ => "pcm_44100"

/-- Numeric value of a digit run (for `parseInt(match[1], 10)`). -/
def digitsToNat (l : List Char) : Nat :=
  l.foldl (fun n c => 10 * n + (c.toNat - 48)) 0

/-- Embeds `parseSampleRate` (src/index.ts): the regex `(\d+)` captures the
first maximal run of decimal digits; absent any digit the fallback is
`44100`. -/
def parseSampleRate (format : String) : Rat :=
  let ds := (format.toList.dropWhile (fun c => !c.isDigit)).takeWhile Char.isDigit
  if ds = [] then 44100 else (digitsToNat ds : Nat)

/-- A JSON value, as produced by `JSON.parse`. -/
inductive JVal where
  | str (s : String)
  | num (q : Rat)
  | boolean (b : Bool)
  | null
  | arr (elems : List JVal)
  | obj (fields : List (String × JVal))
deriving Repr

/-- A parsed JSON object: its top-level key/value pairs in order. -/
abbrev JObj : Type := List (String × JVal)

/-- JavaScript truthiness of a JSON value. -/
def JVal.truthy : JVal → Bool
  | .str s => s != ""
  | .num q => q != 0
  | .boolean b => b
  | .null => false
  | .arr _ => true
  | .obj _ => true

/-- Property access `o[k]` on a parsed JSON object (`JSON.parse` keeps the
last occurrence of a duplicated key). -/
def JObj.getVal (o : JObj) (k : String) : Option JVal :=
  (List.filter (fun p => p.1 = k) o).getLast?.map Prod.snd

/-- The top-level keys of a parsed JSON object, as `Object.keys` returns them
(duplicates cannot survive `JSON.parse`). -/
def JObj.keys (o : JObj) : List String :=
  o.map Prod.fst

/-- JavaScript `a || b` on possibly-`undefined` JSON values. -/
def jsOrVal (a b : Option JVal) : Option JVal :=
  match a with
  | some v => if v.truthy then a else b
  | none => b

/-- String-typed read of a JSON value (the embedded code only consults
string-valued directive fields through this shape). -/
def JVal.asStr : JVal → Option String
  | .str s => some s
  | _ => none

/-- Number-typed read of a JSON value. -/
def JVal.asNum : JVal → Option Rat
  | .num q => some q
  | _ => none

/-- Boolean-typed read of a JSON value. -/
def JVal.asBool : JVal → Option Bool
  | .boolean b => some b
  | _ => none

/-- Characters stripped by `String.prototype.trim` and matched by the regex
`\s`, restricted to the ASCII whitespace that can occur here. -/
def isJsWs (c : Char) : Bool :=
  c = ' ' || c = '\t' || c = '\n' || c = '\r' || c = '\x0b' || c = '\x0c'

/-- Worker for `jsSplitOnNl`: accumulates the current piece (reversed). -/
def jsSplitNlGo : List Char → List Char → List String
  | [], tok => [String.mk tok.reverse]
  | c :: cs, tok =>
    if c = '\n' then String.mk tok.reverse :: jsSplitNlGo cs []
    else jsSplitNlGo cs (c :: tok)

/-- Embeds JavaScript `text.split("\n")`: cut at every newline, keeping empty
pieces (`""` gives `[""]`, `"a\n"` gives `["a", ""]`). -/
def jsSplitOnNl (s : String) : List String :=
  jsSplitNlGo s.toList []

/-- Embeds JavaScript `s.trim()`. -/
def jsTrim (s : String) : String :=
  String.mk (((s.toList.dropWhile isJsWs).reverse.dropWhile isJsWs).reverse)

/-- Embeds `s.startsWith(c)` for a one-character prefix. -/
def jsStartsWithChar (s : String) (c : Char) : Bool :=
  match s.toList with
  | [] => false
  | d :: _ => d = c

/-- Embeds `s.endsWith(c)` for a one-character suffix. -/
def jsEndsWithChar (s : String) (c : Char) : Bool :=
  match s.toList.getLast? with
  | none => false
  | some d => d = c

/-- Embeds JavaScript `lines.join("\n")`. -/
def joinNl : List String → String
  | [] => ""
  | [s] => s
  | s :: rest => s ++ "\n" ++ joinNl rest

/-- The fixed known-key set of `parseVoiceDirective` (src/index.ts). -/
def knownKeys : List String :=
  ["voice", "voice_id", "voiceId", "model", "model_id", "modelId", "speed",
   "rate", "stability", "similarity", "style", "speakerBoost", "seed",
   "normalize", "lang", "language", "output_format", "outputFormat",
   "latency_tier", "once"]

/-- Result record of `parseVoiceDirective`. -/
structure DirectiveParseResult where
  directive : Option JObj
  stripped : String
  unknownKeys : List String

/-- Embeds `parseVoiceDirective` (src/index.ts).  `jsonParse` is the external
`JSON.parse` restricted to object results: it returns the parsed key/value
list, or `none` when parsing throws.  (A successful parse of a string that
starts with `{` is necessarily an object.)  The first line is
`lines[0]?.trim() || ""`; the guard requires it to start with `{` and end
with `}`. -/
def parseVoiceDirective (jsonParse : String → Option JObj) (text : String) :
    DirectiveParseResult :=
  let lines := jsSplitOnNl text
  let firstLine := jsTrim (lines.headD "")
  if jsStartsWithChar firstLine '\x7b' && jsEndsWithChar firstLine '\x7d' then
    match jsonParse firstLine with
    | none => ⟨none, text, []⟩
    | some parsed =>
      ⟨some parsed, joinNl (lines.drop 1),
        (JObj.keys parsed).filter (fun k => !knownKeys.contains k)⟩
  else
    ⟨none, text, []⟩

/-- The WOPR `TTSOptions` interface (src/types.ts). -/
structure TTSOptions where
  voice : Option String := none
  speed : Option Rat := none
  pitch : Option Rat := none
  format : Option AudioFormat := none
  sampleRate : Option Rat := none
  instructions : Option String := none
deriving Repr, DecidableEq

/-- The `ElevenLabsTTSOptions` interface (src/types.ts). -/
structure ElevenLabsTTSOptions where
  voice : Option String := none
  speed : Option Rat := none
  rate : Option Rat := none
  stability : Option Rat := none
  similarity : Option Rat := none
  similarityBoost : Option Rat := none
  style : Option Rat := none
  speakerBoost : Option Bool := none
  seed : Option Rat := none
  modelId : Option String := none
  outputFormat : Option String := none
  language : Option String := none
  latencyTier : Option Rat := none
deriving Repr, DecidableEq

/-- Embeds `mergeOptions` (src/index.ts).  Note that the source uses the
JavaScript `||` operator (first truthy) for `voice`, `speed` and
`similarity`, and plain reads of `extended` for every other field — `base`
contributes only `voice` and `speed`. -/
def mergeOptions (base : Option TTSOptions) (extended : Option ElevenLabsTTSOptions) :
    ElevenLabsTTSOptions :=
  { voice := jsOrStr (extended.bind (·.voice)) (base.bind (·.voice))
    speed := jsOrNum (extended.bind (·.speed)) (base.bind (·.speed))
    rate := extended.bind (·.rate)
    stability := extended.bind (·.stability)
    similarity := jsOrNum (extended.bind (·.similarity)) (extended.bind (·.similarityBoost))
    similarityBoost := none
    style := extended.bind (·.style)
    speakerBoost := extended.bind (·.speakerBoost)
    seed := extended.bind (·.seed)
    modelId := extended.bind (·.modelId)
    outputFormat := extended.bind (·.outputFormat)
    language := extended.bind (·.language)
    latencyTier := extended.bind (·.latencyTier) }

/-- The directive-derived `ElevenLabsTTSOptions` object literal built inside
`synthesize` and `streamSynthesize` (src/index.ts): each field is projected
out of the parsed directive with optional chaining and, where the source
chains spellings, the JavaScript `||` operator.  The `as VoiceDirective`
cast of the source is embedded as type-directed field reads. -/
def directiveToExtOptions (d : Option JObj) : ElevenLabsTTSOptions :=
  { voice := (jsOrVal (d.bind (JObj.getVal · "voiceId"))
      (jsOrVal (d.bind (JObj.getVal · "voice_id")) (d.bind (JObj.getVal · "voice")))).bind JVal.asStr
    speed := (d.bind (JObj.getVal · "speed")).bind JVal.asNum
    rate := (d.bind (JObj.getVal · "rate")).bind JVal.asNum
    stability := (d.bind (JObj.getVal · "stability")).bind JVal.asNum
    similarity := (d.bind (JObj.getVal · "similarity")).bind JVal.asNum
    similarityBoost := none
    style := (d.bind (JObj.getVal · "style")).bind JVal.asNum
    speakerBoost := (d.bind (JObj.getVal · "speakerBoost")).bind JVal.asBool
    seed := (d.bind (JObj.getVal · "seed")).bind JVal.asNum
    modelId := (jsOrVal (d.bind (JObj.getVal · "modelId"))
      (jsOrVal (d.bind (JObj.getVal · "model_id")) (d.bind (JObj.getVal · "model")))).bind JVal.asStr
    outputFormat := (jsOrVal (d.bind (JObj.getVal · "outputFormat"))
      (d.bind (JObj.getVal · "output_format"))).bind JVal.asStr
    language := (jsOrVal (d.bind (JObj.getVal · "lang"))
      (d.bind (JObj.getVal · "language"))).bind JVal.asStr
    latencyTier := (d.bind (JObj.getVal · "latency_tier")).bind JVal.asNum }

/-- The `ElevenLabsConfig` interface (src/types.ts), the provider's stored
configuration. -/
structure ElevenLabsConfig where
  apiKey : String
  defaultVoiceId : Option String := none
  defaultModelId : Option String := none
  stability : Option Rat := none
  similarityBoost : Option Rat := none
  style : Option Rat := none
  speakerBoost : Option Bool := none
deriving Repr, DecidableEq

/-- Worker for `jsSplitWs`: `tok` is the current (reversed) token, `inSep`
records whether the previous character belonged to a separator run. -/
def jsSplitWsGo : List Char → List Char → Bool → List String
  | [], tok, _ => [String.mk tok.reverse]
  | c :: cs, tok, inSep =>
    if isJsWs c then
      if inSep then jsSplitWsGo cs [] true
      else String.mk tok.reverse :: jsSplitWsGo cs [] true
    else
      jsSplitWsGo cs (c :: tok) false

/-- Embeds JavaScript `s.split(/\s+/)`: the string is cut at every maximal
whitespace run, keeping empty pieces at the ends (`"".split` gives `[""]`,
`" a".split` gives `["", "a"]`, `"a "` gives `["a", ""]`). -/
def jsSplitWs (s : String) : List String :=
  jsSplitWsGo s.toList [] false

/-- The `voice_settings` record of the outbound request body
(src/types.ts `VoiceSettings`). -/
structure VoiceSettings where
  stability : Option Rat
  similarity_boost : Option Rat
  style : Option Rat
  use_speaker_boost : Option Bool
deriving Repr, DecidableEq

/-- The observable content of one outbound text-to-speech request: the path
parameter, the JSON body fields (src/types.ts `ElevenLabsTTSRequest`), and
the query parameters. -/
structure SynthRequest where
  voiceId : String
  text : String
  model_id : String
  voice_settings : VoiceSettings
  seed : Option Rat
  language_code : Option String
  outputFormat : String
  latencyQuery : Option Rat
deriving Repr, DecidableEq

/-- The caller-facing metadata of a successful batch synthesis
(src/types.ts `TTSSynthesisResult` minus the audio bytes, which are the
remote endpoint's opaque payload). -/
structure SynthMeta where
  format : AudioFormat
  sampleRate : Rat
  durationMs : Rat
deriving Repr, DecidableEq

/-- The merged option set computed at the top of `synthesize` and
`streamSynthesize` (src/index.ts): call options merged with the
directive-derived extended options. -/
def resolveMergedOpts (jsonParse : String → Option JObj) (text : String)
    (options : Option TTSOptions) : ElevenLabsTTSOptions :=
  mergeOptions options (some (directiveToExtOptions (parseVoiceDirective jsonParse text).directive))

/-- Embeds `ElevenLabsTTSProvider.synthesize` (src/index.ts) up to the
network boundary: it either fails with the `"Voice ID is required"` error
before any request is issued, or determines the single outbound request
together with the metadata of the returned result.  The audio bytes and the
remote error path merely relay the endpoint's response and carry no further
logic of this layer.  Note `cleanText` is `stripped || text` and the
duration estimate divides by `opts.speed || 1.0`. -/
def synthesizeModel (cfg : ElevenLabsConfig) (jsonParse : String → Option JObj)
    (text : String) (options : Option TTSOptions) :
    Except String (SynthRequest × SynthMeta) :=
  let pr := parseVoiceDirective jsonParse text
  let cleanText := if pr.stripped = "" then text else pr.stripped
  let opts := mergeOptions options (some (directiveToExtOptions pr.directive))
  match jsOrStr opts.voice cfg.defaultVoiceId with
  | none => .error "Voice ID is required"
  | some voiceId =>
    if voiceId = "" then .error "Voice ID is required"
    else
      let modelId := jsStrD (jsOrStr opts.modelId cfg.defaultModelId) "eleven_turbo_v2_5"
      let outputFormat := jsStrD opts.outputFormat (mapAudioFormat (options.bind (·.format)))
      let sampleRate := jsNumD (options.bind (·.sampleRate)) (parseSampleRate outputFormat)
      let req : SynthRequest :=
        { voiceId := voiceId
          text := cleanText
          model_id := modelId
          voice_settings :=
            { stability := validateStability (coal opts.stability cfg.stability) (some modelId)
              similarity_boost := validateUnit (coal opts.similarity cfg.similarityBoost)
              style := validateUnit (coal opts.style cfg.style)
              use_speaker_boost := coal opts.speakerBoost cfg.speakerBoost }
          seed := validateSeed opts.seed
          language_code := opts.language
          outputFormat := outputFormat
          latencyQuery := validateLatencyTier opts.latencyTier }
      let words : Rat := ((jsSplitWs cleanText).length : Nat)
      let durationMs := ((words / (5/2)) * 1000) / jsNumD opts.speed 1
      .ok (req,
        { format := (options.bind (·.format)).getD AudioFormat.pcm_s16le
          sampleRate := sampleRate
          durationMs := durationMs })

/-- Embeds `ElevenLabsTTSProvider.streamSynthesize` (src/index.ts) up to the
network boundary, yielding the outbound streaming request.  The parameter
pipeline repeats the batch path verbatim except that no result metadata is
produced, `resolveSpeed` is computed (and never used afterwards), and the
`optimize_streaming_latency` query parameter defaults to `0` when the
latency tier is unset. -/
def streamSynthesizeModel (cfg : ElevenLabsConfig) (jsonParse : String → Option JObj)
    (text : String) (options : Option TTSOptions) : Except String SynthRequest :=
  let pr := parseVoiceDirective jsonParse text
  let cleanText := if pr.stripped = "" then text else pr.stripped
  let opts := mergeOptions options (some (directiveToExtOptions pr.directive))
  match jsOrStr opts.voice cfg.defaultVoiceId with
  | none => .error "Voice ID is required"
  | some voiceId =>
    if voiceId = "" then .error "Voice ID is required"
    else
      let modelId := jsStrD (jsOrStr opts.modelId cfg.defaultModelId) "eleven_turbo_v2_5"
      let outputFormat := jsStrD opts.outputFormat (mapAudioFormat (options.bind (·.format)))
      .ok { voiceId := voiceId
            text := cleanText
            model_id := modelId
            voice_settings :=
              { stability := validateStability (coal opts.stability cfg.stability) (some modelId)
                similarity_boost := validateUnit (coal opts.similarity cfg.similarityBoost)
                style := validateUnit (coal opts.style cfg.style)
                use_speaker_boost := coal opts.speakerBoost cfg.speakerBoost }
            seed := validateSeed opts.seed
            language_code := opts.language
            outputFormat := outputFormat
            latencyQuery := some ((validateLatencyTier opts.latencyTier).getD 0) }

/-- The WOPR `Voice` interface (src/types.ts). -/
structure Voice where
  id : String
  name : String
  language : Option String := none
  gender : Option String := none
  description : Option String := none
deriving Repr, DecidableEq

/-- One record of the remote `GET /voices` response (src/types.ts
`ElevenLabsVoice`; the optional `labels` object is flattened to the two
fields the mapping reads). -/
structure ElevenLabsVoice where
  voice_id : String
  name : String
  labels_language : Option String := none
  labels_gender : Option String := none
  description : Option String := none
deriving Repr, DecidableEq

/-- The per-record mapping applied to the fetched voice list in
`fetchVoices` (src/index.ts). -/
def mapRemoteVoice (v : ElevenLabsVoice) : Voice :=
  { id := v.voice_id
    name := v.name
    language := v.labels_language
    gender := v.labels_gender
    description := v.description }

/-- The provider's mutable voice-cache state (src/index.ts fields
`cachedVoices` and `voicesCachedAt`). -/
structure VoiceCacheState where
  cachedVoices : List Voice
  voicesCachedAt : Nat
deriving Repr, DecidableEq

/-- The cache TTL, one hour in milliseconds (src/index.ts
`VOICE_CACHE_TTL`). -/
def VOICE_CACHE_TTL : Nat := 3600000

/-- Outcome of one `fetchVoices` call: the value returned or error thrown,
the provider state afterwards, and whether a remote fetch was issued. -/
structure FetchVoicesStep where
  result : Except String (List Voice)
  state : VoiceCacheState
  didFetch : Bool
deriving Repr

/-- Embeds `ElevenLabsTTSProvider.fetchVoices` (src/index.ts).  `now` is
`Date.now()` and `remote` is the external `GET /voices` exchange: `.ok`
carries the decoded voice records of a 2xx response, `.error` the status
text of a non-2xx one (in which case the method throws before touching the
cache). -/
def fetchVoicesModel (st : VoiceCacheState) (now : Nat)
    (remote : Except String (List ElevenLabsVoice)) : FetchVoicesStep :=
  if st.cachedVoices.length > 0 ∧ now - st.voicesCachedAt < VOICE_CACHE_TTL then
    ⟨.ok st.cachedVoices, st, false⟩
  else
    match remote with
    | .error statusText => ⟨.error ("Failed to fetch voices: " ++ statusText), st, true⟩
    | .ok data =>
      let vs := data.map mapRemoteVoice
      ⟨.ok vs, ⟨vs, now⟩, true⟩

/-- The provider state visible to the WebMCP `getStatus` handler: the
credential held in the config, the outcome of the external `healthCheck`
probe, and the cached voice list (src/webmcp.ts `getWebMCPHandlers`). -/
structure ProviderView where
  apiKey : String
  healthy : Bool
  voices : List Voice
deriving Repr, DecidableEq

/-- The record returned by the `elevenlabs-tts.getStatus` handler
(src/webmcp.ts): metadata projections plus liveness and voice count. -/
structure StatusOutput where
  provider : String
  type : String
  version : String
  description : String
  localFlag : Bool
  capabilities : List String
  healthy : Bool
  voiceCount : Nat
deriving Repr, DecidableEq

/-- Embeds the `elevenlabs-tts.getStatus` handler (src/webmcp.ts), reading
the constant provider metadata (src/index.ts), the health probe outcome and
the cached voice count.  The TypeScript field `local` is rendered as
`localFlag`. -/
def getStatusModel (p : ProviderView) : StatusOutput :=
  { provider := "elevenlabs"
    type := "tts"
    version := "1.0.0"
    description := "ElevenLabs high-quality text-to-speech with streaming support"
    localFlag := false
    capabilities := ["streaming", "voice-selection", "voice-parameters"]
    healthy := p.healthy
    voiceCount := p.voices.length }

/-- Spec-side definition (spec §4.2/§8), for refinement comparison against
`validateStability`: the nearest element of the ascending candidate list
`{0, 0.5, 1}`, an exact-distance tie going to the candidate encountered
first in ascending order. -/
def specNearestStability (v : Rat) : Rat :=
  if mathAbs (0 - v) ≤ mathAbs (1/2 - v) ∧ mathAbs (0 - v) ≤ mathAbs (1 - v) then 0
  else if mathAbs (1/2 - v) ≤ mathAbs (1 - v) then 1/2
  else 1

/-- A concrete provider configuration with a default voice, shaped like the
constructor output for the README example (src/index.ts). -/
def cfgV1 : ElevenLabsConfig :=
  { apiKey := "test-key"
    defaultVoiceId := some "v1"
    defaultModelId := some "eleven_turbo_v2_5"
    stability := some (1/2)
    similarityBoost := some (3/4)
    style := none
    speakerBoost := some true }

/-- A concrete provider configuration with no default voice id. -/
def cfgNoVoice : ElevenLabsConfig :=
  { apiKey := "test-key" }

/-- JSON-parse oracle for runs whose first line is not parseable JSON. -/
def jsonParseNone : String → Option JObj := fun _ => none

/-- JSON-parse oracle returning a fixed parsed object, for runs on a
concrete text whose first line is that object's JSON rendering. -/
def jsonParseConst (o : JObj) : String → Option JObj := fun _ => some o

/-- Concrete call options carrying only `speed: 1.0`. -/
def optsSpeed1 : TTSOptions := { speed := some 1 }

/-- Concrete extended options carrying only `speed: 2.0` (a directive that
sets speed to 2). -/
def extSpeed2 : ElevenLabsTTSOptions := { speed := some 2 }

/-- Concrete extended options carrying only `speed: 0` (a directive that
sets speed to the defined-but-falsy value 0). -/
def extSpeed0 : ElevenLabsTTSOptions := { speed := some 0 }

/-- Concrete extended options with every field absent (no directive). -/
def extEmpty : ElevenLabsTTSOptions := {}

end ElevenLabsTTS

namespace ElevenLabsTTS

example : parseSampleRate "pcm_24000" = 24000 := by decide
example : parseSampleRate "mp3_44100_128" = 3 := by decide
example : parseSampleRate "unknown" = 44100 := by decide
example : validateStability (some (3/10)) (some "eleven_v3") = some (1/2) := by
  simp only [validateStability, List.foldl, mathAbs]
  norm_num

example : validateStability (some (3/4)) (some "eleven_v3") = some (1/2) := by
  simp only [validateStability, List.foldl, mathAbs]
  norm_num

example : validateStability (some (1/4)) (some "eleven_v3") = some 0 := by
  simp only [validateStability, List.foldl, mathAbs]
  norm_num

end ElevenLabsTTS

namespace ElevenLabsTTS

/-- Inversion principle for `synthesizeModel`: a call either fails with the
voice-required error — exactly when no truthy voice id resolves — or
succeeds with every component of the outbound request and of the result
metadata characterized. -/
lemma synthesizeModel_inv (cfg : ElevenLabsConfig) (jp : String → Option JObj)
    (text : String) (options : Option TTSOptions) :
    (truthyStr (jsOrStr (resolveMergedOpts jp text options).voice cfg.defaultVoiceId) = false
      ∧ synthesizeModel cfg jp text options = .error "Voice ID is required")
    ∨ (∃ v, jsOrStr (resolveMergedOpts jp text options).voice cfg.defaultVoiceId = some v
        ∧ v ≠ ""
        ∧ synthesizeModel cfg jp text options = .ok
          ({ voiceId := v
             text := if (parseVoiceDirective jp text).stripped = "" then text
                     else (parseVoiceDirective jp text).stripped
             model_id := jsStrD (jsOrStr (resolveMergedOpts jp text options).modelId
               cfg.defaultModelId) "eleven_turbo_v2_5"
             voice_settings :=
               { stability := validateStability
                   (coal (resolveMergedOpts jp text options).stability cfg.stability)
                   (some (jsStrD (jsOrStr (resolveMergedOpts jp text options).modelId
                     cfg.defaultModelId) "eleven_turbo_v2_5"))
                 similarity_boost := validateUnit
                   (coal (resolveMergedOpts jp text options).similarity cfg.similarityBoost)
                 style := validateUnit (coal (resolveMergedOpts jp text options).style cfg.style)
                 use_speaker_boost := coal (resolveMergedOpts jp text options).speakerBoost
                   cfg.speakerBoost }
             seed := validateSeed (resolveMergedOpts jp text options).seed
             language_code := (resolveMergedOpts jp text options).language
             outputFormat := jsStrD (resolveMergedOpts jp text options).outputFormat
               (mapAudioFormat (options.bind (·.format)))
             latencyQuery := validateLatencyTier (resolveMergedOpts jp text options).latencyTier },
           { format := (options.bind (·.format)).getD AudioFormat.pcm_s16le
             sampleRate := jsNumD (options.bind (·.sampleRate))
               (parseSampleRate (jsStrD (resolveMergedOpts jp text options).outputFormat
                 (mapAudioFormat (options.bind (·.format)))))
             durationMs := ((((jsSplitWs (if (parseVoiceDirective jp text).stripped = "" then text
                 else (parseVoiceDirective jp text).stripped)).length : Rat) / (5/2)) * 1000)
               / jsNumD (resolveMergedOpts jp text options).speed 1 })) := by
  rcases hv : jsOrStr (resolveMergedOpts jp text options).voice cfg.defaultVoiceId with _ | v
  · left
    refine ⟨rfl, ?_⟩
    simp only [resolveMergedOpts] at hv
    simp only [synthesizeModel]
    rw [hv]
  · by_cases he : v = ""
    · left
      subst he
      refine ⟨rfl, ?_⟩
      simp only [resolveMergedOpts] at hv
      simp only [synthesizeModel]
      rw [hv]
      rfl
    · right
      refine ⟨v, rfl, he, ?_⟩
      simp only [resolveMergedOpts] at hv ⊢
      simp only [synthesizeModel]
      rw [hv]
      simp only [if_neg he]

/-- Inversion principle for `streamSynthesizeModel`, matching
`synthesizeModel_inv` on the streaming request. -/
lemma streamSynthesizeModel_inv (cfg : ElevenLabsConfig) (jp : String → Option JObj)
    (text : String) (options : Option TTSOptions) :
    (truthyStr (jsOrStr (resolveMergedOpts jp text options).voice cfg.defaultVoiceId) = false
      ∧ streamSynthesizeModel cfg jp text options = .error "Voice ID is required")
    ∨ (∃ v, jsOrStr (resolveMergedOpts jp text options).voice cfg.defaultVoiceId = some v
        ∧ v ≠ ""
        ∧ streamSynthesizeModel cfg jp text options = .ok
          { voiceId := v
            text := if (parseVoiceDirective jp text).stripped = "" then text
                    else (parseVoiceDirective jp text).stripped
            model_id := jsStrD (jsOrStr (resolveMergedOpts jp text options).modelId
              cfg.defaultModelId) "eleven_turbo_v2_5"
            voice_settings :=
              { stability := validateStability
                  (coal (resolveMergedOpts jp text options).stability cfg.stability)
                  (some (jsStrD (jsOrStr (resolveMergedOpts jp text options).modelId
                    cfg.defaultModelId) "eleven_turbo_v2_5"))
                similarity_boost := validateUnit
                  (coal (resolveMergedOpts jp text options).similarity cfg.similarityBoost)
                style := validateUnit (coal (resolveMergedOpts jp text options).style cfg.style)
                use_speaker_boost := coal (resolveMergedOpts jp text options).speakerBoost
                  cfg.speakerBoost }
            seed := validateSeed (resolveMergedOpts jp text options).seed
            language_code := (resolveMergedOpts jp text options).language
            outputFormat := jsStrD (resolveMergedOpts jp text options).outputFormat
              (mapAudioFormat (options.bind (·.format)))
            latencyQuery := some ((validateLatencyTier
              (resolveMergedOpts jp text options).latencyTier).getD 0) }) := by
  rcases hv : jsOrStr (resolveMergedOpts jp text options).voice cfg.defaultVoiceId with _ | v
  · left
    refine ⟨rfl, ?_⟩
    simp only [resolveMergedOpts] at hv
    simp only [streamSynthesizeModel]
    rw [hv]
  · by_cases he : v = ""
    · left
      subst he
      refine ⟨rfl, ?_⟩
      simp only [resolveMergedOpts] at hv
      simp only [streamSynthesizeModel]
      rw [hv]
      rfl
    · right
      refine ⟨v, rfl, he, ?_⟩
      simp only [resolveMergedOpts] at hv ⊢
      simp only [streamSynthesizeModel]
      rw [hv]
      simp only [if_neg he]

end ElevenLabsTTS

namespace ElevenLabsTTS

/-- Claim C9: the status introspection output never depends on the
configured API credential — for any two provider states that differ only in
the credential value (same health-probe outcome, same cached voices), the
`getStatus` output is identical, so no part of the credential can reach it. -/
theorem claim_C9_status_credential_independence :
    ∀ (p : ProviderView) (k : String),
      getStatusModel { p with apiKey := k } = getStatusModel p := by
  intro p k
  rfl

/-- Claim C6 (counterexample): with the discrete-stability model
`eleven_v3`, input 0.75 validates to 0.5 — not to 1.0 as the claim states —
because the exact-distance tie between 0.5 and 1.0 goes to the candidate
encountered first in ascending order. -/
theorem claim_C6_counterexample :
    validateStability (some (3/4)) (some "eleven_v3") = some (1/2)
    ∧ validateStability (some (3/4)) (some "eleven_v3") ≠ some 1 := by
  have h : validateStability (some (3/4)) (some "eleven_v3") = some (1/2) := by
    simp only [validateStability, List.foldl, mathAbs]
    norm_num
  refine ⟨h, ?_⟩
  rw [h]
  intro hx
  exact absurd (Option.some.inj hx) (by norm_num)

/-- Claim C6 (amended): with the discrete-stability model `eleven_v3`,
stability validation maps input 0.3 to 0.5 and input 0.24 to 0.0 as
claimed, but input 0.75 to 0.5 (the 0.75 tie resolves downward, by the same
first-minimal-distance rule that sends 0.25 to 0.0). -/
theorem claim_C6_amended :
    validateStability (some (3/10)) (some "eleven_v3") = some (1/2)
    ∧ validateStability (some (6/25)) (some "eleven_v3") = some 0
    ∧ validateStability (some (3/4)) (some "eleven_v3") = some (1/2) := by
  refine ⟨?_, ?_, ?_⟩ <;>
    · simp only [validateStability, List.foldl, mathAbs]
      norm_num

/-- Claim C8 (counterexample): when the remote endpoint returns an empty
voice list, a second `fetchVoices` call within the TTL performs a second
remote fetch — the cache-hit test requires a non-empty cached list, so two
calls within the TTL do not always perform exactly one fetch. -/
theorem claim_C8_counterexample :
    (fetchVoicesModel ⟨[], 0⟩ 0 (.ok [])).didFetch = true
    ∧ (fetchVoicesModel (fetchVoicesModel ⟨[], 0⟩ 0 (.ok [])).state 1 (.ok [])).didFetch = true
    ∧ (1 : Nat) - 0 < VOICE_CACHE_TTL := by
  refine ⟨rfl, rfl, by decide⟩

/-- Claim C8 (amended): `fetchVoices` returns the cached list with no
remote fetch when the cache is non-empty and stamped less than one hour
ago; otherwise it fetches, and on success replaces the cache wholesale and
stamps the fetch time, while a failed fetch raises an error and leaves
cache and timestamp unchanged.  Two calls within the TTL perform exactly
one fetch and return the same list provided the first fetch produced a
non-empty list (an empty fetched list leaves the cache-hit test false). -/
theorem claim_C8_amended :
    (∀ (st : VoiceCacheState) (now : Nat) (remote : Except String (List ElevenLabsVoice)),
      st.cachedVoices ≠ [] → now - st.voicesCachedAt < VOICE_CACHE_TTL →
      fetchVoicesModel st now remote = ⟨.ok st.cachedVoices, st, false⟩)
    ∧ (∀ (st : VoiceCacheState) (now : Nat) (data : List ElevenLabsVoice),
      ¬ (st.cachedVoices ≠ [] ∧ now - st.voicesCachedAt < VOICE_CACHE_TTL) →
      fetchVoicesModel st now (.ok data)
        = ⟨.ok (data.map mapRemoteVoice), ⟨data.map mapRemoteVoice, now⟩, true⟩)
    ∧ (∀ (st : VoiceCacheState) (now : Nat) (msg : String),
      ¬ (st.cachedVoices ≠ [] ∧ now - st.voicesCachedAt < VOICE_CACHE_TTL) →
      fetchVoicesModel st now (.error msg)
        = ⟨.error ("Failed to fetch voices: " ++ msg), st, true⟩)
    ∧ (∀ (st0 : VoiceCacheState) (now1 now2 : Nat) (data : List ElevenLabsVoice)
        (remote2 : Except String (List ElevenLabsVoice)),
      st0.cachedVoices = [] → data.map mapRemoteVoice ≠ [] →
      now2 - now1 < VOICE_CACHE_TTL →
      (fetchVoicesModel st0 now1 (.ok data)).didFetch = true
      ∧ (fetchVoicesModel (fetchVoicesModel st0 now1 (.ok data)).state now2 remote2).didFetch
          = false
      ∧ (fetchVoicesModel (fetchVoicesModel st0 now1 (.ok data)).state now2 remote2).result
          = (fetchVoicesModel st0 now1 (.ok data)).result) := by
  have hit : ∀ (st : VoiceCacheState) (now : Nat) (remote : Except String (List ElevenLabsVoice)),
      st.cachedVoices ≠ [] → now - st.voicesCachedAt < VOICE_CACHE_TTL →
      fetchVoicesModel st now remote = ⟨.ok st.cachedVoices, st, false⟩ := by
    intro st now remote h1 h2
    simp only [fetchVoicesModel]
    rw [if_pos ⟨List.length_pos.mpr h1, h2⟩]
  have missOk : ∀ (st : VoiceCacheState) (now : Nat) (data : List ElevenLabsVoice),
      ¬ (st.cachedVoices ≠ [] ∧ now - st.voicesCachedAt < VOICE_CACHE_TTL) →
      fetchVoicesModel st now (.ok data)
        = ⟨.ok (data.map mapRemoteVoice), ⟨data.map mapRemoteVoice, now⟩, true⟩ := by
    intro st now data h
    simp only [fetchVoicesModel]
    rw [if_neg (by simpa [List.length_pos] using h)]
  have missErr : ∀ (st : VoiceCacheState) (now : Nat) (msg : String),
      ¬ (st.cachedVoices ≠ [] ∧ now - st.voicesCachedAt < VOICE_CACHE_TTL) →
      fetchVoicesModel st now (.error msg)
        = ⟨.error ("Failed to fetch voices: " ++ msg), st, true⟩ := by
    intro st now msg h
    simp only [fetchVoicesModel]
    rw [if_neg (by simpa [List.length_pos] using h)]
  refine ⟨hit, missOk, missErr, ?_⟩
  intro st0 now1 now2 data remote2 h0 hne httl
  have h1 : fetchVoicesModel st0 now1 (.ok data)
      = ⟨.ok (data.map mapRemoteVoice), ⟨data.map mapRemoteVoice, now1⟩, true⟩ :=
    missOk st0 now1 data (by intro hcon; exact hcon.1 h0)
  refine ⟨by rw [h1], ?_, ?_⟩
  · rw [h1, hit ⟨data.map mapRemoteVoice, now1⟩ now2 remote2 hne httl]
  · rw [h1, hit ⟨data.map mapRemoteVoice, now1⟩ now2 remote2 hne httl]

/-- Claim C8 (witness): a cold cache at time 5 fetches and stores one
voice; a second call at time 10 (within the TTL) performs no fetch. -/
theorem claim_C8_amended_witness :
    (fetchVoicesModel ⟨[], 0⟩ 5 (.ok [⟨"v1", "Rachel", none, none, none⟩])).didFetch = true
    ∧ (fetchVoicesModel (fetchVoicesModel ⟨[], 0⟩ 5
        (.ok [⟨"v1", "Rachel", none, none, none⟩])).state 10 (.error "boom")).didFetch
        = false :=
  ⟨(claim_C8_amended.2.2.2 ⟨[], 0⟩ 5 10 [⟨"v1", "Rachel", none, none, none⟩]
      (.error "boom") rfl (by decide) (by decide)).1,
   (claim_C8_amended.2.2.2 ⟨[], 0⟩ 5 10 [⟨"v1", "Rachel", none, none, none⟩]
      (.error "boom") rfl (by decide) (by decide)).2.1⟩

end ElevenLabsTTS

namespace ElevenLabsTTS

/-- Claim C4: directive parsing is total and never rejects.  If the trimmed
first line does not both start with `{` and end with `}`, or `JSON.parse`
fails on it, the parser returns no directive, the full original text
unchanged, and an empty unknown-key list; if parsing succeeds, the
directive is accepted — regardless of unknown top-level keys, which are
collected into the reported list — with the remaining lines rejoined. -/
theorem claim_C4_directive_parsing_total :
    ∀ (jsonParse : String → Option JObj) (text : String),
      ((jsStartsWithChar (jsTrim ((jsSplitOnNl text).headD "")) '\x7b' = false
          ∨ jsEndsWithChar (jsTrim ((jsSplitOnNl text).headD "")) '\x7d' = false) →
        parseVoiceDirective jsonParse text = ⟨none, text, []⟩)
      ∧ (jsonParse (jsTrim ((jsSplitOnNl text).headD "")) = none →
        parseVoiceDirective jsonParse text = ⟨none, text, []⟩)
      ∧ (∀ parsed, jsonParse (jsTrim ((jsSplitOnNl text).headD "")) = some parsed →
          jsStartsWithChar (jsTrim ((jsSplitOnNl text).headD "")) '\x7b' = true →
          jsEndsWithChar (jsTrim ((jsSplitOnNl text).headD "")) '\x7d' = true →
          parseVoiceDirective jsonParse text =
            ⟨some parsed, joinNl ((jsSplitOnNl text).drop 1),
              (JObj.keys parsed).filter (fun k => !knownKeys.contains k)⟩) := by
  intro jsonParse text
  refine ⟨?_, ?_, ?_⟩
  · intro h
    simp only [parseVoiceDirective]
    rcases h with h | h <;> rw [h] <;> simp
  · intro h
    simp only [parseVoiceDirective]
    split
    · rw [h]
    · rfl
  · intro parsed hjp hstart hend
    simp only [parseVoiceDirective]
    rw [hstart, hend, hjp]
    rfl

/-- Claim C4 (witness): a directive with the unknown key `foo` is still
accepted, the key is reported, and the trailing line survives. -/
theorem claim_C4_directive_parsing_total_witness :
    parseVoiceDirective (jsonParseConst [("voice", JVal.str "x"), ("foo", JVal.num 1)])
        "\x7b\"voice\":\"x\",\"foo\":1\x7d\nHi"
      = ⟨some [("voice", JVal.str "x"), ("foo", JVal.num 1)], "Hi", ["foo"]⟩ :=
  (claim_C4_directive_parsing_total
      (jsonParseConst [("voice", JVal.str "x"), ("foo", JVal.num 1)])
      "\x7b\"voice\":\"x\",\"foo\":1\x7d\nHi").2.2
    [("voice", JVal.str "x"), ("foo", JVal.num 1)] rfl rfl rfl

/-- Claim C1 (counterexample): option resolution does not take the first
defined value — with a directive speed of 0 (defined but falsy) over a
call-scoped speed of 1.0, the merged speed is 1.0, not the directive's 0,
because the source coalesces `voice` and `speed` with JavaScript `||`. -/
theorem claim_C1_counterexample :
    extSpeed0.speed = some 0
    ∧ (mergeOptions (some optsSpeed1) (some extSpeed0)).speed = some 1
    ∧ (mergeOptions (some optsSpeed1) (some extSpeed0)).speed ≠ extSpeed0.speed := by
  refine ⟨rfl, rfl, ?_⟩
  intro hx
  exact absurd (Option.some.inj hx) (by norm_num)

/-- Claim C1 (amended): resolution is per-field (no wholesale record
override) with precedence directive over call options over provider
config, but for the fields where call options can be overridden (`voice`,
`speed`) the first *truthy* value wins (JavaScript `||`): a truthy
directive value beats the call options, an absent directive field falls
through, and a defined-but-falsy directive value (speed 0, empty voice)
also falls through.  In particular directive speed 2.0 over call speed 1.0
resolves to 2.0; with no directive, call speed 1.0 resolves to 1.0; and a
directive setting only `speed` leaves `stability` to fall through to the
provider default in the built request. -/
theorem claim_C1_amended :
    (∀ (base : TTSOptions) (ext : ElevenLabsTTSOptions) (s : Rat),
      ext.speed = some s → s ≠ 0 →
      (mergeOptions (some base) (some ext)).speed = some s)
    ∧ (∀ (base : TTSOptions) (ext : ElevenLabsTTSOptions),
      ext.speed = none → (mergeOptions (some base) (some ext)).speed = base.speed)
    ∧ (∀ (base : TTSOptions) (ext : ElevenLabsTTSOptions) (v : String),
      ext.voice = some v → v ≠ "" →
      (mergeOptions (some base) (some ext)).voice = some v)
    ∧ (mergeOptions (some optsSpeed1) (some extSpeed2)).speed = some 2
    ∧ (mergeOptions (some optsSpeed1) (some extEmpty)).speed = some 1
    ∧ (synthesizeModel cfgV1 (jsonParseConst [("speed", JVal.num 2)])
        "\x7b\"speed\":2\x7d\nhello" none).map
          (fun r => (r.1.voice_settings.stability, r.2.durationMs))
        = .ok (some (1/2), 200) := by
  refine ⟨?_, ?_, ?_, rfl, rfl, ?_⟩
  · intro base ext s hs hs0
    simp [mergeOptions, jsOrNum, truthyNum, hs, bne_iff_ne, hs0]
  · intro base ext hs
    simp [mergeOptions, jsOrNum, truthyNum, hs]
  · intro base ext v hv hv0
    simp [mergeOptions, jsOrStr, truthyStr, hv, bne_iff_ne, hv0]
  · show Except.ok (some (max 0 (min 1 (1/2 : Rat))),
      ((((1 : Nat) : Rat) / (5/2)) * 1000) / 2) = Except.ok (some (1/2), 200)
    norm_num

/-- Claim C1 (witness): the truthy-precedence rule applied at directive
speed 2.0 over call speed 1.0. -/
theorem claim_C1_amended_witness :
    (mergeOptions (some optsSpeed1) (some extSpeed2)).speed = some 2 :=
  claim_C1_amended.1 optsSpeed1 extSpeed2 2 rfl (by norm_num)

end ElevenLabsTTS

namespace ElevenLabsTTS

/-- Claim C3 (counterexample): when the directive line is the entire input,
the stripped remainder is empty, but the text synthesized is not that empty
remainder — `cleanText` is `stripped || text`, so the full original text,
directive line included, is sent to the endpoint. -/
theorem claim_C3_counterexample :
    (parseVoiceDirective (jsonParseConst [("speed", JVal.num 1)]) "\x7b\"speed\":1\x7d").stripped
        = ""
    ∧ (synthesizeModel cfgV1 (jsonParseConst [("speed", JVal.num 1)]) "\x7b\"speed\":1\x7d"
        none).map (fun r => r.1.text) = .ok "\x7b\"speed\":1\x7d"
    ∧ (synthesizeModel cfgV1 (jsonParseConst [("speed", JVal.num 1)]) "\x7b\"speed\":1\x7d"
        none).map (fun r => r.1.text) ≠ .ok "" := by
  have h : (synthesizeModel cfgV1 (jsonParseConst [("speed", JVal.num 1)]) "\x7b\"speed\":1\x7d"
      none).map (fun r => r.1.text) = .ok "\x7b\"speed\":1\x7d" := rfl
  refine ⟨rfl, h, ?_⟩
  intro hx
  rw [h] at hx
  exact absurd (Except.ok.inj hx) (by decide)

/-- Claim C3 (amended): on every synthesize or stream-synthesize call that
does not fail voice resolution, the request text equals the stripped
remainder when that remainder is non-empty, and the full original text
(directive line included) when the remainder is the empty string; when a
directive is parsed the stripped remainder is exactly the lines after the
first, rejoined.  A directive line followed by a body is therefore sent
with just the body. -/
theorem claim_C3_amended :
    (∀ (cfg : ElevenLabsConfig) (jsonParse : String → Option JObj) (text : String)
        (options : Option TTSOptions),
      (synthesizeModel cfg jsonParse text options).map (fun r => r.1.text)
          = .error "Voice ID is required"
        ∨ (synthesizeModel cfg jsonParse text options).map (fun r => r.1.text)
          = .ok (if (parseVoiceDirective jsonParse text).stripped = "" then text
                 else (parseVoiceDirective jsonParse text).stripped))
    ∧ (∀ (cfg : ElevenLabsConfig) (jsonParse : String → Option JObj) (text : String)
        (options : Option TTSOptions),
      (streamSynthesizeModel cfg jsonParse text options).map (fun r => r.text)
          = .error "Voice ID is required"
        ∨ (streamSynthesizeModel cfg jsonParse text options).map (fun r => r.text)
          = .ok (if (parseVoiceDirective jsonParse text).stripped = "" then text
                 else (parseVoiceDirective jsonParse text).stripped))
    ∧ (∀ (jsonParse : String → Option JObj) (text : String),
      (parseVoiceDirective jsonParse text).stripped = text
        ∨ (parseVoiceDirective jsonParse text).stripped = joinNl ((jsSplitOnNl text).drop 1))
    ∧ (synthesizeModel cfgV1 (jsonParseConst [("speed", JVal.num 1)])
        "\x7b\"speed\":1\x7d\nSay this" none).map (fun r => r.1.text) = .ok "Say this" := by
  refine ⟨?_, ?_, ?_, rfl⟩
  · intro cfg jsonParse text options
    rcases synthesizeModel_inv cfg jsonParse text options with ⟨_, he⟩ | ⟨v, _, _, hok⟩
    · left
      rw [he]
      rfl
    · right
      rw [hok]
      rfl
  · intro cfg jsonParse text options
    rcases streamSynthesizeModel_inv cfg jsonParse text options with ⟨_, he⟩ | ⟨v, _, _, hok⟩
    · left
      rw [he]
      rfl
    · right
      rw [hok]
      rfl
  · intro jsonParse text
    simp only [parseVoiceDirective]
    split
    · rcases jsonParse (jsTrim ((jsSplitOnNl text).headD "")) with _ | parsed
      · left
        rfl
      · right
        rfl
    · left
      rfl

/-- Claim C5 (counterexample): the batch duration estimate divides by the
raw merged speed, not by the clamped resolved speed — at speed 10 and five
words the code reports 200 ms while the claimed formula (clamp to 4.0)
gives 500 ms. -/
theorem claim_C5_counterexample :
    (synthesizeModel cfgV1 jsonParseNone "a b c d e" (some { speed := some 10 })).map
        (fun r => r.2.durationMs) = .ok 200
    ∧ ((((5 : Rat) / (5/2)) * 1000) / ((resolveSpeed (some 10) none).getD 1) = 500)
    ∧ (200 : Rat) ≠ 500 := by
  refine ⟨?_, ?_, by norm_num⟩
  · show Except.ok ((((5 : Nat) : Rat) / (5/2)) * 1000 / 10) = Except.ok 200
    norm_num
  · show (((5 : Rat) / (5/2)) * 1000) / (max (1/4) (min 4 10)) = 500
    norm_num [min_def, max_def]

/-- Claim C5 (amended): on every successful batch synthesize call the
estimated duration is `(words / 2.5) * 1000` divided by the *raw* merged
speed when that is truthy and by 1.0 otherwise — no clamping to
`[0.25, 4.0]` is applied and a rate (words per minute) is never consulted,
since the batch path uses `opts.speed || 1.0` and not `resolveSpeed`.
Words are counted by splitting the cleaned text at whitespace runs. -/
theorem claim_C5_amended :
    (∀ (cfg : ElevenLabsConfig) (jsonParse : String → Option JObj) (text : String)
        (options : Option TTSOptions),
      (synthesizeModel cfg jsonParse text options).map (fun r => r.2.durationMs)
          = .error "Voice ID is required"
        ∨ (synthesizeModel cfg jsonParse text options).map (fun r => r.2.durationMs)
          = .ok (((((jsSplitWs (if (parseVoiceDirective jsonParse text).stripped = "" then text
                else (parseVoiceDirective jsonParse text).stripped)).length : Rat) / (5/2))
              * 1000) / jsNumD (resolveMergedOpts jsonParse text options).speed 1))
    ∧ (synthesizeModel cfgV1 jsonParseNone "a b c d e" (some { speed := some 10 })).map
        (fun r => r.2.durationMs) = .ok 200
    ∧ (synthesizeModel cfgV1 (jsonParseConst [("rate", JVal.num 300)])
        "\x7b\"rate\":300\x7d\nv w x y z" none).map (fun r => r.2.durationMs) = .ok 2000 := by
  refine ⟨?_, ?_, ?_⟩
  · intro cfg jsonParse text options
    rcases synthesizeModel_inv cfg jsonParse text options with ⟨_, he⟩ | ⟨v, _, _, hok⟩
    · left
      rw [he]
      rfl
    · right
      rw [hok]
      rfl
  · show Except.ok ((((5 : Nat) : Rat) / (5/2)) * 1000 / 10) = Except.ok 200
    norm_num
  · show Except.ok ((((5 : Nat) : Rat) / (5/2)) * 1000 / 1) = Except.ok 2000
    norm_num

/-- Claim C10 (counterexample): the reported sample rate is not independent
of a directive `output_format` override — with no caller sample rate, a
directive overriding the output format to `pcm_16000` makes the result
report 16000 where the same call without the directive reports 44100. -/
theorem claim_C10_counterexample :
    (synthesizeModel cfgV1 (jsonParseConst [("output_format", JVal.str "pcm_16000")])
        "\x7b\"output_format\":\"pcm_16000\"\x7d\nHi" none).map (fun r => r.2.sampleRate)
      = .ok 16000
    ∧ (synthesizeModel cfgV1 jsonParseNone "Hi" none).map (fun r => r.2.sampleRate)
      = .ok 44100
    ∧ (16000 : Rat) ≠ 44100 := by
  refine ⟨?_, ?_, by norm_num⟩
  · show Except.ok (((16000 : Nat) : Rat)) = Except.ok 16000
    norm_num
  · show Except.ok (((44100 : Nat) : Rat)) = Except.ok 44100
    norm_num

/-- Claim C10 (amended): on every successful synthesize call the returned
format tag is `options.format` when provided and `pcm_s16le` otherwise —
independent of any directive `output_format` override — while the returned
sample rate is `options.sampleRate` when truthy and otherwise the rate
parsed from the resolved output-format string, which *does* reflect a
directive `output_format` override (such an override therefore changes both
the audio bytes requested and, absent a caller sample rate, the reported
sample rate, but never the reported format tag). -/
theorem claim_C10_amended :
    (∀ (cfg : ElevenLabsConfig) (jsonParse : String → Option JObj) (text : String)
        (options : Option TTSOptions),
      (synthesizeModel cfg jsonParse text options).map (fun r => r.2.format)
          = .error "Voice ID is required"
        ∨ (synthesizeModel cfg jsonParse text options).map (fun r => r.2.format)
          = .ok ((options.bind (·.format)).getD AudioFormat.pcm_s16le))
    ∧ (∀ (cfg : ElevenLabsConfig) (jsonParse : String → Option JObj) (text : String)
        (options : Option TTSOptions),
      (synthesizeModel cfg jsonParse text options).map (fun r => (r.2.sampleRate, r.1.outputFormat))
          = .error "Voice ID is required"
        ∨ (synthesizeModel cfg jsonParse text options).map (fun r => (r.2.sampleRate, r.1.outputFormat))
          = .ok (jsNumD (options.bind (·.sampleRate))
                   (parseSampleRate (jsStrD (resolveMergedOpts jsonParse text options).outputFormat
                     (mapAudioFormat (options.bind (·.format))))),
                 jsStrD (resolveMergedOpts jsonParse text options).outputFormat
                   (mapAudioFormat (options.bind (·.format))))) := by
  refine ⟨?_, ?_⟩
  · intro cfg jsonParse text options
    rcases synthesizeModel_inv cfg jsonParse text options with ⟨_, he⟩ | ⟨v, _, _, hok⟩
    · left
      rw [he]
      rfl
    · right
      rw [hok]
      rfl
  · intro cfg jsonParse text options
    rcases synthesizeModel_inv cfg jsonParse text options with ⟨_, he⟩ | ⟨v, _, _, hok⟩
    · left
      rw [he]
      rfl
    · right
      rw [hok]
      rfl

end ElevenLabsTTS

namespace ElevenLabsTTS

/-- Claim C7: voice id resolution falls back through the directive (three
spellings, first truthy wins), then the call options, then the provider
config's default voice id; when no truthy voice id results, both
`synthesize` and `streamSynthesize` fail with the voice-required error and
no request is produced.  Model id resolution falls back through the
directive to the config default and finally to the fixed baseline
`eleven_turbo_v2_5`, so the resolved model id is never empty — model
resolution cannot fail. -/
theorem claim_C7_voice_model_resolution :
    (∀ (jsonParse : String → Option JObj) (text : String) (options : Option TTSOptions),
      (resolveMergedOpts jsonParse text options).voice
        = jsOrStr (directiveToExtOptions (parseVoiceDirective jsonParse text).directive).voice
            (options.bind (·.voice))
      ∧ (resolveMergedOpts jsonParse text options).modelId
        = (directiveToExtOptions (parseVoiceDirective jsonParse text).directive).modelId)
    ∧ (∀ (cfg : ElevenLabsConfig) (jsonParse : String → Option JObj) (text : String)
        (options : Option TTSOptions),
      (truthyStr (jsOrStr (resolveMergedOpts jsonParse text options).voice cfg.defaultVoiceId)
          = false →
        synthesizeModel cfg jsonParse text options = .error "Voice ID is required"
        ∧ streamSynthesizeModel cfg jsonParse text options = .error "Voice ID is required")
      ∧ (∀ v, jsOrStr (resolveMergedOpts jsonParse text options).voice cfg.defaultVoiceId
            = some v → v ≠ "" →
          (synthesizeModel cfg jsonParse text options).map (fun r => (r.1.voiceId, r.1.model_id))
            = .ok (v, jsStrD (jsOrStr (resolveMergedOpts jsonParse text options).modelId
                cfg.defaultModelId) "eleven_turbo_v2_5")
          ∧ (streamSynthesizeModel cfg jsonParse text options).map
              (fun r => (r.voiceId, r.model_id))
            = .ok (v, jsStrD (jsOrStr (resolveMergedOpts jsonParse text options).modelId
                cfg.defaultModelId) "eleven_turbo_v2_5")))
    ∧ (∀ (a b : Option String), jsStrD (jsOrStr a b) "eleven_turbo_v2_5" ≠ "") := by
  refine ⟨fun jsonParse text options => ⟨rfl, rfl⟩, ?_, ?_⟩
  · intro cfg jsonParse text options
    constructor
    · intro hfalse
      rcases synthesizeModel_inv cfg jsonParse text options with ⟨_, he⟩ | ⟨v, hv, hne, _⟩
      · rcases streamSynthesizeModel_inv cfg jsonParse text options with ⟨_, he2⟩ | ⟨v, hv, hne, _⟩
        · exact ⟨he, he2⟩
        · rw [hv] at hfalse
          simp [truthyStr, bne_iff_ne, hne] at hfalse
      · rw [hv] at hfalse
        simp [truthyStr, bne_iff_ne, hne] at hfalse
    · intro v hv hne
      constructor
      · rcases synthesizeModel_inv cfg jsonParse text options with ⟨hfalse, _⟩ | ⟨w, hw, hwne, hok⟩
        · rw [hv] at hfalse
          simp [truthyStr, bne_iff_ne, hne] at hfalse
        · rw [hv] at hw
          rw [hok, Option.some.inj hw]
          rfl
      · rcases streamSynthesizeModel_inv cfg jsonParse text options with ⟨hfalse, _⟩ | ⟨w, hw, hwne, hok⟩
        · rw [hv] at hfalse
          simp [truthyStr, bne_iff_ne, hne] at hfalse
        · rw [hv] at hw
          rw [hok, Option.some.inj hw]
          rfl
  · intro a b
    unfold jsStrD
    rcases jsOrStr a b with _ | s
    · decide
    · show (if s = "" then "eleven_turbo_v2_5" else s) ≠ ""
      by_cases hs : s = ""
      · rw [if_pos hs]
        decide
      · rw [if_neg hs]
        exact hs

/-- Claim C7 (witness): with no voice anywhere the call fails with the
voice-required error; with a config default voice the request carries that
voice and the baseline fast model. -/
theorem claim_C7_voice_model_resolution_witness :
    synthesizeModel cfgNoVoice jsonParseNone "hello" none = .error "Voice ID is required"
    ∧ (synthesizeModel cfgV1 jsonParseNone "hello" none).map (fun r => (r.1.voiceId, r.1.model_id))
        = .ok ("v1", "eleven_turbo_v2_5") :=
  ⟨((claim_C7_voice_model_resolution.2.1 cfgNoVoice jsonParseNone "hello" none).1 rfl).1,
   ((claim_C7_voice_model_resolution.2.1 cfgV1 jsonParseNone "hello" none).2 "v1" rfl
      (by decide)).1⟩

end ElevenLabsTTS

namespace ElevenLabsTTS

/-- Claim C2: with the discrete-stability model `eleven_v3`, the validated
stability is the nearest element of the ascending candidate list
`{0, 0.5, 1}` with exact-distance ties resolved to the candidate
encountered first (so the result is never further from the input than any
candidate, beats equidistant candidates only when it is the smaller one,
and is always a member of the set); in particular input 0.25 yields 0.0,
not 0.5. -/
theorem claim_C2_discrete_stability :
    (∀ v : Rat,
      validateStability (some v) (some "eleven_v3") = some (specNearestStability v)
      ∧ (specNearestStability v = 0 ∨ specNearestStability v = 1/2 ∨ specNearestStability v = 1)
      ∧ mathAbs (specNearestStability v - v) ≤ mathAbs (0 - v)
      ∧ mathAbs (specNearestStability v - v) ≤ mathAbs (1/2 - v)
      ∧ mathAbs (specNearestStability v - v) ≤ mathAbs (1 - v)
      ∧ (mathAbs (0 - v) = mathAbs (specNearestStability v - v) → specNearestStability v ≤ 0)
      ∧ (mathAbs (1/2 - v) = mathAbs (specNearestStability v - v) → specNearestStability v ≤ 1/2)
      ∧ (mathAbs (1 - v) = mathAbs (specNearestStability v - v) → specNearestStability v ≤ 1))
    ∧ validateStability (some (1/4)) (some "eleven_v3") = some 0 := by
  constructor
  · intro v
    have e : validateStability (some v) (some "eleven_v3")
        = some (if mathAbs (1 - v) < mathAbs ((if mathAbs (1/2 - v) < mathAbs (0 - v)
              then (1/2 : Rat) else 0) - v) then 1
            else if mathAbs (1/2 - v) < mathAbs (0 - v) then (1/2 : Rat) else 0) := rfl
    rcases le_or_lt (mathAbs (0 - v)) (mathAbs (1/2 - v)) with h1 | h1
    · rcases le_or_lt (mathAbs (0 - v)) (mathAbs (1 - v)) with h2 | h2
      · have hs : specNearestStability v = 0 := by
          simp only [specNearestStability]
          rw [if_pos ⟨h1, h2⟩]
        have hc : validateStability (some v) (some "eleven_v3") = some 0 := by
          rw [e, if_neg (not_lt.mpr h1), if_neg (not_lt.mpr h2)]
        rw [hs]
        exact ⟨hc, Or.inl rfl, le_refl _, h1, h2, fun _ => le_refl _,
          fun _ => by norm_num, fun _ => by norm_num⟩
      · have hs : specNearestStability v = 1 := by
          simp only [specNearestStability]
          rw [if_neg (fun hcon => absurd hcon.2 (not_le.mpr h2)),
            if_neg (not_le.mpr (lt_of_lt_of_le h2 h1))]
        have hc : validateStability (some v) (some "eleven_v3") = some 1 := by
          rw [e, if_neg (not_lt.mpr h1), if_pos h2]
        rw [hs]
        exact ⟨hc, Or.inr (Or.inr rfl), le_of_lt h2, by linarith, le_refl _,
          fun heq => by linarith, fun heq => by linarith, fun _ => le_refl _⟩
    · rcases le_or_lt (mathAbs (1/2 - v)) (mathAbs (1 - v)) with h2 | h2
      · have hs : specNearestStability v = 1/2 := by
          simp only [specNearestStability]
          rw [if_neg (fun hcon => absurd hcon.1 (not_le.mpr h1)), if_pos h2]
        have hc : validateStability (some v) (some "eleven_v3") = some (1/2) := by
          rw [e, if_pos h1, if_neg (not_lt.mpr h2)]
        rw [hs]
        exact ⟨hc, Or.inr (Or.inl rfl), le_of_lt h1, le_refl _, h2,
          fun heq => by linarith, fun _ => le_refl _, fun _ => by norm_num⟩
      · have hs : specNearestStability v = 1 := by
          simp only [specNearestStability]
          rw [if_neg (fun hcon => absurd hcon.1 (not_le.mpr h1)), if_neg (not_le.mpr h2)]
        have hc : validateStability (some v) (some "eleven_v3") = some 1 := by
          rw [e, if_pos h1, if_pos h2]
        rw [hs]
        exact ⟨hc, Or.inr (Or.inr rfl), by linarith, le_of_lt h2, le_refl _,
          fun heq => by linarith, fun heq => by linarith, fun _ => le_refl _⟩
  · simp only [validateStability, List.foldl, mathAbs]
    norm_num

/-- Claim C2 (witness): at the tie input 0.25 the validated stability is
the spec-side nearest value, and that value (0, the first candidate) does
not exceed the equidistant candidate 0.5. -/
theorem claim_C2_discrete_stability_witness :
    validateStability (some (1/4)) (some "eleven_v3") = some (specNearestStability (1/4))
    ∧ specNearestStability (1/4) ≤ 1/2 :=
  ⟨(claim_C2_discrete_stability.1 (1/4)).1,
   (claim_C2_discrete_stability.1 (1/4)).2.2.2.2.2.2.1
     (by simp only [specNearestStability, mathAbs]; norm_num)⟩

end ElevenLabsTTS
